import Mathlib

/-!
Verification of the msg-ai provider core: credential resolution, the provider
registry, the model-catalog cache, and the chat/stream execution protocol.

The TypeScript source is embedded shallowly: environments are functions
`String → Option String`, JavaScript truthiness on optional strings and
numbers is made explicit (`jsTruthyStr`, `jsOrNat`, `jsOrStr`), thrown
errors become `Except` values, and each operation that may touch the
network additionally reports how many network calls and vendor-client
constructions it performed, so that "no network I/O happened" is a
provable statement rather than a side remark.

The repository carries two revisions of the base provider and of some
adapters; per the documented reference behavior, the newer revision
(explicit usage normalization, reasoning-effort pass-through, retry count)
is the one embedded here.
-/

/-- A process environment: maps a variable name to its value if set. -/
def Env : Type := String → Option String

/-- JavaScript truthiness of a `string | undefined` value:
`undefined` and the empty string are falsy. -/
def jsTruthyStr : Option String → Bool
  | none => false
  | some s => s ≠ ""

/-- JavaScript `x || d` on an optional string `x`: falsy (`undefined` or
empty) falls through to the default. -/
def jsOrStr : Option String → String → String
  | none, d => d
  | some s, d => if s = "" then d else s

/-- JavaScript `x || d` where both sides are optional strings
(`process.env[k] || config.baseUrl`). -/
def jsOrOptStr : Option String → Option String → Option String
  | none, d => d
  | some s, d => if s = "" then d else some s

/-- JavaScript `x || d` on an optional number `x`: `undefined` and `0`
are falsy and fall through to the default. -/
def jsOrNat : Option Nat → Nat → Nat
  | none, d => d
  | some n, d => if n = 0 then d else n

/-- `startsWith` on character lists (for the substring tests below). -/
def charsStartWith : List Char → List Char → Bool
  | _, [] => true
  | [], _ :: _ => false
  | a :: as, b :: bs => a = b && charsStartWith as bs

/-- Substring occurrence on character lists. -/
def charsContain : List Char → List Char → Bool
  | [], pat => pat.isEmpty
  | a :: as, pat => charsStartWith (a :: as) pat || charsContain as pat

/-- JavaScript `s.includes(pat)`. -/
def strContains (s pat : String) : Bool :=
  charsContain s.toList pat.toList

/-- Replace the first occurrence of `pat` in `s` (character-list core). -/
def charsReplaceFirst (s pat repl : List Char) : List Char :=
  match s with
  | [] => if pat.isEmpty then repl else []
  | c :: cs =>
    if charsStartWith (c :: cs) pat then repl ++ (c :: cs).drop pat.length
    else c :: charsReplaceFirst cs pat repl

/-- JavaScript `s.replace(pat, repl)` with a string pattern: replaces only
the first occurrence. -/
def strReplaceFirst (s pat repl : String) : String :=
  String.mk (charsReplaceFirst s.toList pat.toList repl.toList)

/-- One entry of a provider's static model table (`ModelConfig` in
`src/types/index.ts`). -/
structure ModelConfig where
  id : String
  name : String
  contextWindow : Option Nat := none
  maxTokens : Option Nat := none
deriving DecidableEq, Repr

/-- `ProviderConfig` from `src/types/index.ts`: the immutable per-adapter
configuration. `alternativeEnvKeys` is `[]` when the source omits the
optional field (the credential loop then runs zero iterations either way). -/
structure ProviderConfig where
  name : String
  displayName : String
  envKey : String
  alternativeEnvKeys : List String := []
  baseUrl : Option String := none
  models : List ModelConfig
  defaultModel : String
deriving DecidableEq, Repr

/-- The `for (const altKey of alternativeEnvKeys)` loop body of
`BaseProvider.loadApiKey`: `apiKey` is overwritten by each tried key's
value and the loop breaks at the first truthy one, so the final value is
the first truthy value, or else the last value tried. -/
def loadApiKeyLoop (env : Env) : List String → Option String → Option String
  | [], acc => acc
  | k :: ks, _ =>
    let v := env k
    if jsTruthyStr v then v else loadApiKeyLoop env ks v

/-- `BaseProvider.loadApiKey`: try the primary `envKey`; if its value is
falsy, run the alternative-key loop. -/
def loadApiKey (env : Env) (cfg : ProviderConfig) : Option String :=
  let primary := env cfg.envKey
  if jsTruthyStr primary then primary
  else loadApiKeyLoop env cfg.alternativeEnvKeys primary

/-- `BaseProvider.loadBaseUrl`: read `<ENVKEY minus _API_KEY>_BASE_URL`
from the environment, falling back to the configured base URL. -/
def loadBaseUrl (env : Env) (cfg : ProviderConfig) : Option String :=
  let baseUrlEnvKey := (strReplaceFirst cfg.envKey "_API_KEY" "") ++ "_BASE_URL"
  jsOrOptStr (env baseUrlEnvKey) cfg.baseUrl

/-- An adapter instance: configuration plus the credential and base URL
resolved once at construction (never re-read afterwards). -/
structure Provider where
  config : ProviderConfig
  apiKey : Option String
  baseUrl : Option String
deriving DecidableEq, Repr

/-- The `BaseProvider` constructor: resolve `apiKey` and `baseUrl` from the
environment once. -/
def mkProvider (cfg : ProviderConfig) (env : Env) : Provider :=
  { config := cfg, apiKey := loadApiKey env cfg, baseUrl := loadBaseUrl env cfg }

/-- The shared error taxonomy of `src/utils/errors.ts` (the payload each
`AiChatError` subclass carries in `details`). -/
inductive AiChatError where
  | apiKeyMissing (envKey : String) (provider : String)
  | providerNotFound (requested : String) (available : List String)
  | modelNotFound (model : String) (provider : String) (available : List String)
  | networkFailure (message : String)
  | vendorErr (message : String)
deriving DecidableEq, Repr

/-- `BaseProvider.isAvailable`: `!!this.apiKey`. -/
def Provider.isAvailable (p : Provider) : Bool :=
  jsTruthyStr p.apiKey

/-- `BaseProvider.assertAvailable`: throw `ApiKeyMissingError(envKey,
displayName)` when unavailable. -/
def Provider.assertAvailable (p : Provider) : Except AiChatError Unit :=
  if p.isAvailable then Except.ok ()
  else Except.error (AiChatError.apiKeyMissing p.config.envKey p.config.displayName)

/-- `BaseProvider.getAvailableModels`: ids of the static model table. -/
def Provider.getAvailableModels (p : Provider) : List String :=
  p.config.models.map (fun m => m.id)

/-- `reasoningEffort` values of `ChatOptions`. -/
inductive ReasoningEffort where
  | minimal | low | medium | high
deriving DecidableEq, Repr

/-- `ChatOptions` from `src/types/index.ts` (per-call caller options). -/
structure ChatOptions where
  model : Option String := none
  temperature : Option Rat := none
  maxTokens : Option Nat := none
  systemPrompt : Option String := none
  stream : Option Bool := none
  reasoningEffort : Option ReasoningEffort := none
  showTiming : Option Bool := none
deriving DecidableEq, Repr

/-- Token counts as the vendor SDK reports them (`result.usage`): each
field may be `undefined`. -/
structure VendorUsage where
  inputTokens : Option Nat
  outputTokens : Option Nat
  totalTokens : Option Nat
deriving DecidableEq, Repr

/-- A deterministic successful vendor completion: the generated text and
the optional usage record. -/
structure VendorResult where
  text : String
  usage : Option VendorUsage
deriving DecidableEq, Repr

/-- The normalized usage counters of `ChatResponse`. -/
structure Usage where
  promptTokens : Nat
  completionTokens : Nat
  totalTokens : Nat
deriving DecidableEq, Repr

/-- `ChatResponse` from `src/types/index.ts`. -/
structure ChatResponse where
  content : String
  provider : String
  model : String
  usage : Option Usage
deriving DecidableEq, Repr

/-- Usage normalization in `BaseProvider.chat`:
`promptTokens := inputTokens || 0`, `completionTokens := outputTokens || 0`,
`totalTokens := totalTokens || (inputTokens || 0) + (outputTokens || 0)`. -/
def normalizeUsage (u : VendorUsage) : Usage :=
  { promptTokens := jsOrNat u.inputTokens 0
    completionTokens := jsOrNat u.outputTokens 0
    totalTokens := jsOrNat u.totalTokens (jsOrNat u.inputTokens 0 + jsOrNat u.outputTokens 0) }

instance {ε α : Type} [DecidableEq ε] [DecidableEq α] : DecidableEq (Except ε α) := fun x y =>
  match x, y with
  | Except.ok a, Except.ok b =>
    if h : a = b then isTrue (by rw [h]) else isFalse (by intro he; cases he; exact h rfl)
  | Except.error a, Except.error b =>
    if h : a = b then isTrue (by rw [h]) else isFalse (by intro he; cases he; exact h rfl)
  | Except.ok _, Except.error _ => isFalse (by intro he; cases he)
  | Except.error _, Except.ok _ => isFalse (by intro he; cases he)

/-- The options object handed to the vendor `generateText`/`streamText`
call: resolved model id, forwarded temperature, `maxRetries: 3`, and the
reasoning-effort provider option (set only for the `openai` adapter). -/
structure GenerateOptions where
  modelId : String
  temperature : Option Rat
  maxRetries : Nat
  reasoningEffort : Option ReasoningEffort
deriving DecidableEq, Repr

/-- Outcome of a `chat` call, instrumented with the request actually sent
(`none` when no vendor call was made) and counts of network calls and
vendor-client constructions. -/
structure ChatResult where
  result : Except AiChatError ChatResponse
  request : Option GenerateOptions
  networkCalls : Nat
  clientConstructions : Nat
deriving DecidableEq, Repr

/-- `BaseProvider.chat`: assert availability; resolve the model id
(`options?.model || defaultModel`); build the vendor options (with
`maxRetries: 3` and, for the openai adapter only, the reasoning-effort
provider option); call the vendor; normalize usage. `vendor` stands for
the deterministic response the vendor network call produces. -/
def Provider.chat (p : Provider) (opts : ChatOptions) (vendor : VendorResult) : ChatResult :=
  match p.assertAvailable with
  | Except.error e =>
    { result := Except.error e, request := none, networkCalls := 0, clientConstructions := 0 }
  | Except.ok () =>
    let modelId := jsOrStr opts.model p.config.defaultModel
    let req : GenerateOptions :=
      { modelId := modelId
        temperature := opts.temperature
        maxRetries := 3
        reasoningEffort :=
          if opts.reasoningEffort.isSome && p.config.name == "openai" then
            opts.reasoningEffort
          else none }
    { result := Except.ok
        { content := vendor.text
          provider := p.config.name
          model := modelId
          usage := vendor.usage.map normalizeUsage }
      request := some req
      networkCalls := 1
      clientConstructions := 1 }

/-- A vendor text stream: the fragments delivered (in arrival order)
before the stream either completes normally (`failure = none`) or raises
(`failure = some msg` after the listed fragments). -/
structure VendorStream where
  chunks : List String
  failure : Option String
deriving DecidableEq, Repr

/-- Outcome of a `streamChat` call: the fragments yielded to the consumer
in order, the terminal outcome (normal completion or raised error), and
the same instrumentation as `ChatResult`. -/
structure StreamResult where
  yielded : List String
  outcome : Except AiChatError Unit
  request : Option GenerateOptions
  networkCalls : Nat
  clientConstructions : Nat
deriving DecidableEq, Repr

/-- `BaseProvider.streamChat`: assert availability; resolve the model id;
open the streaming call with the same options as `chat`; forward each
arriving fragment unchanged (`for await (chunk of textStream) yield chunk`);
a mid-stream vendor failure is re-thrown after the fragments that already
arrived were yielded. -/
def Provider.streamChat (p : Provider) (opts : ChatOptions) (vs : VendorStream) : StreamResult :=
  match p.assertAvailable with
  | Except.error e =>
    { yielded := [], outcome := Except.error e, request := none
      networkCalls := 0, clientConstructions := 0 }
  | Except.ok () =>
    let modelId := jsOrStr opts.model p.config.defaultModel
    let req : GenerateOptions :=
      { modelId := modelId
        temperature := opts.temperature
        maxRetries := 3
        reasoningEffort :=
          if opts.reasoningEffort.isSome && p.config.name == "openai" then
            opts.reasoningEffort
          else none }
    { yielded := vs.chunks
      outcome :=
        match vs.failure with
        | none => Except.ok ()
        | some msg => Except.error (AiChatError.vendorErr msg)
      request := some req
      networkCalls := 1
      clientConstructions := 1 }

/-- The opaque handle `createModel` returns: the lazily constructed vendor
client (credential and base URL) applied to the resolved model id. -/
structure VendorHandle where
  providerName : String
  modelId : String
  apiKey : Option String
  baseUrl : Option String
deriving DecidableEq, Repr

/-- Outcome of `createModel`, instrumented with the network-call count
(client construction performs no network I/O). -/
structure CreateModelResult where
  result : Except AiChatError VendorHandle
  networkCalls : Nat
deriving DecidableEq, Repr

/-- `createModel` (each adapter): resolve `modelId || defaultModel`, then
`getClient()` — which on a fresh adapter runs `assertAvailable()` and
constructs the vendor client — applied to the model id. No network I/O. -/
def Provider.createModel (p : Provider) (modelId : Option String) : CreateModelResult :=
  let model := jsOrStr modelId p.config.defaultModel
  match p.assertAvailable with
  | Except.error e => { result := Except.error e, networkCalls := 0 }
  | Except.ok () =>
    { result := Except.ok
        { providerName := p.config.name, modelId := model
          apiKey := p.apiKey, baseUrl := p.baseUrl }
      networkCalls := 0 }

/-- One entry of the OpenAI `/v1/models` payload (`{id, created}`). -/
structure OAIModelEntry where
  id : String
  created : Int
deriving DecidableEq, Repr

/-- Stable insertion of an earlier element into a list already sorted by
`created` descending: it goes in front of the first element it is not
older than, preserving arrival order among equal timestamps. -/
def insertByCreated (x : OAIModelEntry) : List OAIModelEntry → List OAIModelEntry
  | [] => [x]
  | y :: ys => if x.created ≥ y.created then x :: y :: ys else y :: insertByCreated x ys

/-- The stable `sort((a, b) => b.created - a.created)` of the OpenAI
model-fetch: newest first. -/
def sortByCreatedDesc : List OAIModelEntry → List OAIModelEntry
  | [] => []
  | x :: xs => insertByCreated x (sortByCreatedDesc xs)

/-- The post-processing of a successful OpenAI models payload: keep ids
containing `gpt`, `o1` or `chatgpt`, sort by creation date (newest
first), and project the ids. -/
def openaiChatModels (data : List OAIModelEntry) : List String :=
  (sortByCreatedDesc (data.filter (fun m =>
    strContains m.id "gpt" || strContains m.id "o1" || strContains m.id "chatgpt"))).map
    (fun m => m.id)

/-- One entry of the Gemini models payload
(`{name, supportedGenerationMethods}`, the method list possibly absent). -/
structure GeminiModelEntry where
  name : String
  supportedGenerationMethods : Option (List String)
deriving DecidableEq, Repr

/-- The post-processing of a successful Gemini models payload: keep models
supporting `generateContent`, strip the first `models/` path segment, keep
only names containing `gemini`. -/
def geminiChatModels (data : List GeminiModelEntry) : List String :=
  ((data.filter (fun m =>
      match m.supportedGenerationMethods with
      | some methods => methods.contains "generateContent"
      | none => false)).map
    (fun m => strReplaceFirst m.name "models/" "")).filter
    (fun nm => strContains nm "gemini")

/-- What the live model-listing HTTP call did: the fetch promise rejected
(network error), the response arrived with a non-success status
(`!response.ok`), or it succeeded with a parsed payload. -/
inductive FetchOutcome (α : Type) where
  | thrown
  | httpError
  | success (data : α)
deriving DecidableEq, Repr

/-- The per-adapter model-list cache: `cachedModels` and
`modelsCacheTime`, each possibly unset. -/
structure ModelCache where
  cachedModels : Option (List String)
  modelsCacheTime : Option Nat
deriving DecidableEq, Repr

/-- A fresh adapter's cache: both fields unset. -/
def emptyCache : ModelCache := { cachedModels := none, modelsCacheTime := none }

/-- `CACHE_DURATION = 60 * 60 * 1000` milliseconds (one hour). -/
def CACHE_DURATION : Nat := 60 * 60 * 1000

/-- The freshness test guarding `fetchAvailableModels`:
`this.cachedModels && this.modelsCacheTime && Date.now() - this.modelsCacheTime
< CACHE_DURATION` (a set array is always truthy; a timestamp of `0` is
falsy; clock regression makes the JS difference negative, which like the
truncated Nat difference stays below the window). -/
def ModelCache.isFresh (st : ModelCache) (now : Nat) : Bool :=
  match st.cachedModels, st.modelsCacheTime with
  | some _, some t => t != 0 && decide (now - t < CACHE_DURATION)
  | _, _ => false

/-- Outcome of one `fetchAvailableModels` call: the returned id list, the
cache state afterwards, and how many live network calls were issued. -/
structure FetchResult where
  models : List String
  cache : ModelCache
  networkCalls : Nat
deriving DecidableEq, Repr

/-- `OpenAIProvider.fetchAvailableModels`: return the cache while fresh;
without a credential degrade to the static list with no network I/O;
otherwise issue the live fetch — a thrown error or non-success status
falls back to the static list leaving the cache untouched, and a success
caches (and returns) the filtered list, or the static list when the
filter kept nothing, stamping the current time. -/
def openaiFetchModels (p : Provider) (st : ModelCache) (now : Nat)
    (outcome : FetchOutcome (List OAIModelEntry)) : FetchResult :=
  if st.isFresh now then
    { models := st.cachedModels.getD [], cache := st, networkCalls := 0 }
  else if !p.isAvailable then
    { models := p.getAvailableModels, cache := st, networkCalls := 0 }
  else
    match outcome with
    | FetchOutcome.thrown =>
      { models := p.getAvailableModels, cache := st, networkCalls := 1 }
    | FetchOutcome.httpError =>
      { models := p.getAvailableModels, cache := st, networkCalls := 1 }
    | FetchOutcome.success data =>
      let chatModels := openaiChatModels data
      let cached := if chatModels.length > 0 then chatModels else p.getAvailableModels
      { models := cached
        cache := { cachedModels := some cached, modelsCacheTime := some now }
        networkCalls := 1 }

/-- `GeminiProvider.fetchAvailableModels`: identical cache/fallback
structure with the Gemini payload post-processing. -/
def geminiFetchModels (p : Provider) (st : ModelCache) (now : Nat)
    (outcome : FetchOutcome (List GeminiModelEntry)) : FetchResult :=
  if st.isFresh now then
    { models := st.cachedModels.getD [], cache := st, networkCalls := 0 }
  else if !p.isAvailable then
    { models := p.getAvailableModels, cache := st, networkCalls := 0 }
  else
    match outcome with
    | FetchOutcome.thrown =>
      { models := p.getAvailableModels, cache := st, networkCalls := 1 }
    | FetchOutcome.httpError =>
      { models := p.getAvailableModels, cache := st, networkCalls := 1 }
    | FetchOutcome.success data =>
      let chatModels := geminiChatModels data
      let cached := if chatModels.length > 0 then chatModels else p.getAvailableModels
      { models := cached
        cache := { cachedModels := some cached, modelsCacheTime := some now }
        networkCalls := 1 }

/-- The OpenAI adapter configuration (`src/providers/openai.ts`). -/
def openaiConfig : ProviderConfig :=
  { name := "openai", displayName := "OpenAI", envKey := "OPENAI_API_KEY"
    defaultModel := "gpt-4o-mini"
    models :=
      [ { id := "gpt-4o", name := "GPT-4 Optimized", maxTokens := some 16384 }
      , { id := "gpt-4o-mini", name := "GPT-4 Optimized Mini", maxTokens := some 16384 }
      , { id := "gpt-4-turbo", name := "GPT-4 Turbo", maxTokens := some 128000 }
      , { id := "gpt-4", name := "GPT-4", maxTokens := some 8192 }
      , { id := "gpt-3.5-turbo", name := "GPT-3.5 Turbo", maxTokens := some 16384 } ] }

/-- The Gemini adapter configuration (`src/providers/gemini.ts`), with the
`GOOGLE_API_KEY` alternate credential. -/
def geminiConfig : ProviderConfig :=
  { name := "gemini", displayName := "Google Gemini", envKey := "GEMINI_API_KEY"
    alternativeEnvKeys := ["GOOGLE_API_KEY"]
    defaultModel := "gemini-2.5-pro"
    models :=
      [ { id := "gemini-2.5-pro", name := "Gemini 2.5 Pro", maxTokens := some 1048576 }
      , { id := "gemini-2.5-flash", name := "Gemini 2.5 Flash", maxTokens := some 1048576 }
      , { id := "gemini-2.5-flash-lite", name := "Gemini 2.5 Flash-Lite", maxTokens := some 1048576 } ] }

/-- The Grok adapter configuration (`src/providers/grok.ts`, newer
revision). -/
def grokConfig : ProviderConfig :=
  { name := "grok", displayName := "X.AI Grok", envKey := "XAI_API_KEY"
    baseUrl := some "https://api.x.ai/v1"
    defaultModel := "grok-4"
    models :=
      [ { id := "grok-4", name := "Grok 3", maxTokens := some 131072 }
      , { id := "grok-3-mini", name := "Grok 3 Mini", maxTokens := some 131072 }
      , { id := "grok-3", name := "Grok 3", maxTokens := some 131072 } ] }

/-- The DeepSeek adapter configuration (`src/providers/deepseek.ts`, newer
revision). -/
def deepseekConfig : ProviderConfig :=
  { name := "deepseek", displayName := "DeepSeek", envKey := "DEEPSEEK_API_KEY"
    baseUrl := some "https://api.deepseek.com"
    defaultModel := "deepseek-chat"
    models :=
      [ { id := "deepseek-chat", name := "DeepSeek Chat", maxTokens := some 65536 }
      , { id := "deepseek-reasoner", name := "DeepSeek Reasoner", maxTokens := some 65536 } ] }

/-- The Kimi adapter configuration (`src/providers/kimi.ts`), with the
`MOONSHOT_API_KEY` alternate credential. -/
def kimiConfig : ProviderConfig :=
  { name := "kimi", displayName := "Kimi (Moonshot)", envKey := "KIMI_API_KEY"
    alternativeEnvKeys := ["MOONSHOT_API_KEY"]
    baseUrl := some "https://api.moonshot.ai/v1"
    defaultModel := "moonshot-v1-8k"
    models :=
      [ { id := "moonshot-v1-8k", name := "Moonshot v1 8K", maxTokens := some 8192 }
      , { id := "moonshot-v1-32k", name := "Moonshot v1 32K", maxTokens := some 32768 }
      , { id := "moonshot-v1-128k", name := "Moonshot v1 128K", maxTokens := some 131072 } ] }

/-- The Anthropic adapter configuration (`src/providers/anthropic.ts`,
newer revision), with the `CLAUDE_API_KEY` alternate credential. -/
def anthropicConfig : ProviderConfig :=
  { name := "anthropic", displayName := "Anthropic (Claude)", envKey := "ANTHROPIC_API_KEY"
    alternativeEnvKeys := ["CLAUDE_API_KEY"]
    defaultModel := "claude-opus-4-1"
    models :=
      [ { id := "claude-opus-4-1", name := "Claude Opus 4.1", maxTokens := some 200000 }
      , { id := "claude-opus-4-0", name := "Claude Opus 4.0", maxTokens := some 200000 }
      , { id := "claude-sonnet-4-0", name := "Claude Sonnet 4.0", maxTokens := some 200000 }
      , { id := "claude-3-7-sonnet-latest", name := "Claude Sonnet 3.7", maxTokens := some 200000 }
      , { id := "claude-3-5-sonnet-latest", name := "Claude Sonnet 3.5", maxTokens := some 200000 }
      , { id := "claude-3-5-haiku-latest", name := "Claude Haiku 3.5", maxTokens := some 200000 } ] }

/-- `ProviderRegistry.registerProviders`: one adapter per family,
constructed in the fixed order OpenAI, Gemini, Grok, DeepSeek, Kimi,
Anthropic. The JS `Map` keyed by the (distinct) short names preserves this
insertion order, so the registry is modelled as the ordered list. -/
def mkRegistry (env : Env) : List Provider :=
  [ mkProvider openaiConfig env
  , mkProvider geminiConfig env
  , mkProvider grokConfig env
  , mkProvider deepseekConfig env
  , mkProvider kimiConfig env
  , mkProvider anthropicConfig env ]

/-- `ProviderRegistry.listAllProviders`: the registered short names in
registration order. -/
def listAllProviders (reg : List Provider) : List String :=
  reg.map (fun p => p.config.name)

/-- `ProviderRegistry.get`: exact-match lookup on the short name; an
unknown name throws `ProviderNotFoundError(name, listAllProviders())`. -/
def registryGet (reg : List Provider) (nm : String) : Except AiChatError Provider :=
  match reg.find? (fun p => p.config.name == nm) with
  | some p => Except.ok p
  | none => Except.error (AiChatError.providerNotFound nm (listAllProviders reg))

/-- `ProviderRegistry.getFirstAvailable`: scan the registered adapters in
order and return the first available one, else `null`. -/
def getFirstAvailable (reg : List Provider) : Option Provider :=
  reg.find? (fun p => p.isAvailable)

/-- Modelled from the spec: "resolved once at construction from
environment by trying `envKey` then each `alternativeEnvKeys` in order"
keeping "the first non-empty value" (a variable that is unset, or set to
the empty string, is skipped) — the reference resolution the code's
`loadApiKey` is compared against. -/
def specFirstNonEmpty (env : Env) : List String → Option String
  | [] => none
  | k :: ks => if jsTruthyStr (env k) then env k else specFirstNonEmpty env ks

/-- Concrete environments used to instantiate the theorems below. -/
def emptyEnv : Env := fun _ => none

def googleEnv : Env := fun k => if k = "GOOGLE_API_KEY" then some "g-key" else none

def dsEnv : Env := fun k => if k = "DEEPSEEK_API_KEY" then some "sk-ds" else none

def oaEnv : Env := fun k => if k = "OPENAI_API_KEY" then some "sk-test" else none

theorem loadApiKeyLoop_all_none (env : Env) (ks : List String)
    (h : ∀ k ∈ ks, env k = none) : loadApiKeyLoop env ks none = none := by
  induction ks with
  | nil => rfl
  | cons k ks ih =>
    have hk : env k = none := h k (List.mem_cons_self k ks)
    simp only [loadApiKeyLoop, hk, jsTruthyStr, if_false]
    exact ih (fun k' hk' => h k' (List.mem_cons_of_mem k hk'))

theorem loadApiKey_none (env : Env) (cfg : ProviderConfig)
    (hp : env cfg.envKey = none)
    (ha : ∀ k ∈ cfg.alternativeEnvKeys, env k = none) :
    loadApiKey env cfg = none := by
  simp only [loadApiKey, hp, jsTruthyStr, if_false]
  exact loadApiKeyLoop_all_none env cfg.alternativeEnvKeys ha

theorem jsTruthyStr_iff (o : Option String) :
    jsTruthyStr o = true ↔ ∃ s, o = some s ∧ s ≠ "" := by
  cases o <;> simp [jsTruthyStr]

theorem specFirstNonEmpty_ne_empty (env : Env) (ks : List String) (v : String)
    (h : specFirstNonEmpty env ks = some v) : v ≠ "" := by
  induction ks with
  | nil => simp [specFirstNonEmpty] at h
  | cons k ks ih =>
    by_cases ht : jsTruthyStr (env k) = true
    · rw [specFirstNonEmpty, if_pos ht] at h
      obtain ⟨s, hs, hne⟩ := (jsTruthyStr_iff (env k)).mp ht
      rw [hs] at h
      cases h
      exact hne
    · rw [specFirstNonEmpty, if_neg ht] at h
      exact ih h

theorem loadApiKeyLoop_spec_some (env : Env) (ks : List String) (v : String)
    (h : specFirstNonEmpty env ks = some v) :
    ∀ acc, loadApiKeyLoop env ks acc = some v := by
  induction ks with
  | nil => simp [specFirstNonEmpty] at h
  | cons k ks ih =>
    intro acc
    by_cases ht : jsTruthyStr (env k) = true
    · rw [specFirstNonEmpty, if_pos ht] at h
      rw [loadApiKeyLoop, if_pos ht]
      exact h
    · rw [specFirstNonEmpty, if_neg ht] at h
      rw [loadApiKeyLoop, if_neg ht]
      exact ih h (env k)

theorem loadApiKeyLoop_spec_none (env : Env) (ks : List String)
    (h : specFirstNonEmpty env ks = none) :
    ∀ acc, jsTruthyStr acc = false → jsTruthyStr (loadApiKeyLoop env ks acc) = false := by
  induction ks with
  | nil => intro acc hacc; simpa [loadApiKeyLoop] using hacc
  | cons k ks ih =>
    intro acc hacc
    by_cases ht : jsTruthyStr (env k) = true
    · rw [specFirstNonEmpty, if_pos ht] at h
      obtain ⟨s, hs, _⟩ := (jsTruthyStr_iff (env k)).mp ht
      rw [hs] at h
      exact Option.noConfusion h
    · rw [specFirstNonEmpty, if_neg ht] at h
      rw [loadApiKeyLoop, if_neg ht]
      exact ih h (env k) (Bool.not_eq_true _ ▸ ht)

theorem loadApiKey_spec_some (env : Env) (cfg : ProviderConfig) (v : String)
    (h : specFirstNonEmpty env (cfg.envKey :: cfg.alternativeEnvKeys) = some v) :
    loadApiKey env cfg = some v := by
  by_cases ht : jsTruthyStr (env cfg.envKey) = true
  · rw [specFirstNonEmpty, if_pos ht] at h
    rw [loadApiKey]
    simp only [ht, if_true]
    exact h
  · rw [specFirstNonEmpty, if_neg ht] at h
    rw [loadApiKey]
    simp only [ht, if_false]
    exact loadApiKeyLoop_spec_some env _ v h _

theorem loadApiKey_spec_none (env : Env) (cfg : ProviderConfig)
    (h : specFirstNonEmpty env (cfg.envKey :: cfg.alternativeEnvKeys) = none) :
    jsTruthyStr (loadApiKey env cfg) = false := by
  by_cases ht : jsTruthyStr (env cfg.envKey) = true
  · rw [specFirstNonEmpty, if_pos ht] at h
    obtain ⟨s, hs, _⟩ := (jsTruthyStr_iff (env cfg.envKey)).mp ht
    rw [hs] at h
    exact Option.noConfusion h
  · rw [specFirstNonEmpty, if_neg ht] at h
    rw [loadApiKey]
    simp only [ht, if_false]
    exact loadApiKeyLoop_spec_none env _ h _ (Bool.not_eq_true _ ▸ ht)

/-- C1: a provider constructed with neither the primary `envKey` nor any
`alternativeEnvKeys` set is unavailable, and both `chat` and `streamChat`
fail with the `ApiKeyMissingError` carrying the primary env key and the
display name, before any network call or vendor-client construction is
attempted (no request is built, zero network calls, zero client
constructions, no fragment yielded). -/
theorem chat_stream_credential_missing (cfg : ProviderConfig) (env : Env)
    (opts : ChatOptions) (vendor : VendorResult) (vs : VendorStream)
    (hp : env cfg.envKey = none)
    (ha : ∀ k ∈ cfg.alternativeEnvKeys, env k = none) :
    (mkProvider cfg env).isAvailable = false ∧
    (mkProvider cfg env).chat opts vendor =
      { result := Except.error (AiChatError.apiKeyMissing cfg.envKey cfg.displayName)
        request := none, networkCalls := 0, clientConstructions := 0 } ∧
    (mkProvider cfg env).streamChat opts vs =
      { yielded := []
        outcome := Except.error (AiChatError.apiKeyMissing cfg.envKey cfg.displayName)
        request := none, networkCalls := 0, clientConstructions := 0 } := by
  have hk : loadApiKey env cfg = none := loadApiKey_none env cfg hp ha
  have hav : (mkProvider cfg env).isAvailable = false := by
    simp [mkProvider, Provider.isAvailable, hk, jsTruthyStr]
  refine ⟨hav, ?_, ?_⟩ <;>
    simp [Provider.chat, Provider.streamChat, Provider.assertAvailable, mkProvider,
      Provider.isAvailable, hk, jsTruthyStr]

/-- Witness for C1 at the Gemini adapter (which has an alternate env key)
under the empty environment. -/
theorem chat_stream_credential_missing_witness :
    (mkProvider geminiConfig emptyEnv).isAvailable = false ∧
    (mkProvider geminiConfig emptyEnv).chat {} { text := "hi", usage := none } =
      { result := Except.error (AiChatError.apiKeyMissing "GEMINI_API_KEY" "Google Gemini")
        request := none, networkCalls := 0, clientConstructions := 0 } ∧
    (mkProvider geminiConfig emptyEnv).streamChat {} { chunks := ["a"], failure := none } =
      { yielded := []
        outcome := Except.error (AiChatError.apiKeyMissing "GEMINI_API_KEY" "Google Gemini")
        request := none, networkCalls := 0, clientConstructions := 0 } :=
  chat_stream_credential_missing geminiConfig emptyEnv {} { text := "hi", usage := none }
    { chunks := ["a"], failure := none } rfl (fun _ _ => rfl)

/-- C2: the credential is resolved once at construction (the adapter field
is exactly `loadApiKey`'s result); whenever some key in the order
`envKey :: alternativeEnvKeys` holds a non-empty value, the resolved
credential is the first such value (empty-string values are skipped), and
the adapter is available; when no key holds a non-empty value the adapter
is unavailable.  In particular a provider whose primary key is unset but
whose alternative is set is available and uses the alternative value. -/
theorem apiKey_resolution_matches_spec (env : Env) (cfg : ProviderConfig) :
    (mkProvider cfg env).apiKey = loadApiKey env cfg ∧
    (∀ v, specFirstNonEmpty env (cfg.envKey :: cfg.alternativeEnvKeys) = some v →
      (mkProvider cfg env).apiKey = some v ∧ (mkProvider cfg env).isAvailable = true) ∧
    (specFirstNonEmpty env (cfg.envKey :: cfg.alternativeEnvKeys) = none →
      (mkProvider cfg env).isAvailable = false) := by
  refine ⟨rfl, ?_, ?_⟩
  · intro v hv
    have hk := loadApiKey_spec_some env cfg v hv
    have hne := specFirstNonEmpty_ne_empty env _ v hv
    constructor
    · simpa [mkProvider] using hk
    · simp [mkProvider, Provider.isAvailable, hk, jsTruthyStr, hne]
  · intro hnone
    have := loadApiKey_spec_none env cfg hnone
    simpa [mkProvider, Provider.isAvailable] using this

/-- Witness for C2: Gemini with only the alternate `GOOGLE_API_KEY` set
resolves the alternative value and is available. -/
theorem apiKey_resolution_matches_spec_witness :
    (mkProvider geminiConfig googleEnv).apiKey = some "g-key" ∧
    (mkProvider geminiConfig googleEnv).isAvailable = true :=
  (apiKey_resolution_matches_spec googleEnv geminiConfig).2.1 "g-key" (by decide)

theorem find_first_spec {α : Type} (q : α → Bool) (l : List α) (x : α)
    (h : l.find? q = some x) :
    q x = true ∧ ∃ i, l.get? i = some x ∧
      ∀ j, j < i → ∀ y, l.get? j = some y → q y = false := by
  induction l with
  | nil => simp [List.find?] at h
  | cons a as ih =>
    by_cases hq : q a = true
    · rw [List.find?_cons_of_pos _ hq] at h
      cases h
      exact ⟨hq, 0, List.get?_cons_zero, fun j hj _ _ => absurd hj (Nat.not_lt_zero j)⟩
    · rw [List.find?_cons_of_neg _ hq] at h
      obtain ⟨hqx, i, hi, hb⟩ := ih h
      refine ⟨hqx, i + 1, by rw [List.get?_cons_succ]; exact hi, ?_⟩
      intro j hj y hy
      cases j with
      | zero =>
        rw [List.get?_cons_zero] at hy
        cases hy
        exact Bool.not_eq_true _ ▸ hq
      | succ j' =>
        rw [List.get?_cons_succ] at hy
        exact hb j' (Nat.lt_of_succ_lt_succ hj) y hy

theorem registry_names (env : Env) :
    listAllProviders (mkRegistry env) =
      ["openai", "gemini", "grok", "deepseek", "kimi", "anthropic"] := rfl

/-- C3: `getFirstAvailable` scans the adapters in registration order
(OpenAI, Gemini, Grok, DeepSeek, Kimi, Anthropic): it returns `none`
exactly when no registered adapter is available (rather than raising),
and any adapter it returns is available and sits at a registry position
before which every adapter is unavailable. -/
theorem getFirstAvailable_registration_order (env : Env) :
    listAllProviders (mkRegistry env) =
      ["openai", "gemini", "grok", "deepseek", "kimi", "anthropic"] ∧
    (getFirstAvailable (mkRegistry env) = none ↔
      ∀ p ∈ mkRegistry env, p.isAvailable = false) ∧
    (∀ p, getFirstAvailable (mkRegistry env) = some p →
      p.isAvailable = true ∧
      ∃ i, (mkRegistry env).get? i = some p ∧
        ∀ j, j < i → ∀ q, (mkRegistry env).get? j = some q → q.isAvailable = false) := by
  refine ⟨registry_names env, ?_, ?_⟩
  · rw [getFirstAvailable, List.find?_eq_none]
    constructor
    · intro h p hp
      exact Bool.not_eq_true _ ▸ (h p hp)
    · intro h p hp
      rw [h p hp]
      simp
  · intro p hp
    exact find_first_spec _ _ p hp

/-- Witness for C3 (spec scenario): with only `DEEPSEEK_API_KEY` set,
`getFirstAvailable` returns the DeepSeek adapter, which is available. -/
theorem getFirstAvailable_registration_order_witness :
    getFirstAvailable (mkRegistry dsEnv) = some (mkProvider deepseekConfig dsEnv) ∧
    (mkProvider deepseekConfig dsEnv).isAvailable = true ∧
    (mkProvider deepseekConfig dsEnv).config.name = "deepseek" := by
  have h1 : getFirstAvailable (mkRegistry dsEnv) = some (mkProvider deepseekConfig dsEnv) := by
    decide
  exact ⟨h1, ((getFirstAvailable_registration_order dsEnv).2.2 _ h1).1, rfl⟩

/-- C8: looking up a name that is not a registered short identifier fails
with `ProviderNotFoundError` carrying the requested name and exactly the
registered names in registration order; and the lookup is exact-match on
the short identifier (any successful lookup returns the adapter whose
short name equals the requested string verbatim). -/
theorem registryGet_not_found (env : Env) (nm : String) :
    (nm ∉ ["openai", "gemini", "grok", "deepseek", "kimi", "anthropic"] →
      registryGet (mkRegistry env) nm =
        Except.error (AiChatError.providerNotFound nm
          ["openai", "gemini", "grok", "deepseek", "kimi", "anthropic"])) ∧
    (∀ p, registryGet (mkRegistry env) nm = Except.ok p → p.config.name = nm) := by
  constructor
  · intro h
    simp only [List.mem_cons, List.not_mem_nil, or_false, not_or] at h
    obtain ⟨h1, h2, h3, h4, h5, h6⟩ := h
    have hf : (mkRegistry env).find? (fun p => p.config.name == nm) = none := by
      rw [List.find?_eq_none]
      intro p hp
      simp only [mkRegistry, List.mem_cons, List.not_mem_nil, or_false] at hp
      rcases hp with rfl | rfl | rfl | rfl | rfl | rfl
      · simp only [mkProvider, openaiConfig, beq_iff_eq]
        exact fun he => h1 he.symm
      · simp only [mkProvider, geminiConfig, beq_iff_eq]
        exact fun he => h2 he.symm
      · simp only [mkProvider, grokConfig, beq_iff_eq]
        exact fun he => h3 he.symm
      · simp only [mkProvider, deepseekConfig, beq_iff_eq]
        exact fun he => h4 he.symm
      · simp only [mkProvider, kimiConfig, beq_iff_eq]
        exact fun he => h5 he.symm
      · simp only [mkProvider, anthropicConfig, beq_iff_eq]
        exact fun he => h6 he.symm
    simp [registryGet, hf, registry_names env]
  · intro p hp
    cases hfind : (mkRegistry env).find? (fun q => q.config.name == nm) with
    | none => simp [registryGet, hfind] at hp
    | some q =>
      simp only [registryGet, hfind] at hp
      cases hp
      have := List.find?_some hfind
      exact beq_iff_eq.mp this

/-- Witness for C8: the display-style capitalization `"OpenAI"` is not a
registered short name and is rejected with the registered names listed. -/
theorem registryGet_not_found_witness :
    registryGet (mkRegistry emptyEnv) "OpenAI" =
      Except.error (AiChatError.providerNotFound "OpenAI"
        ["openai", "gemini", "grok", "deepseek", "kimi", "anthropic"]) :=
  (registryGet_not_found emptyEnv "OpenAI").1 (by decide)

/-- C4: for the adapters with a live model-fetch override (OpenAI and
Gemini), a successful live fetch from a non-fresh cache issues exactly one
network call, overwrites the cache with the returned list and stamps the
fetch time; a second call within the one-hour window returns the cached
list with zero network calls and leaves the cache untouched, whatever the
network would have done; and a call after the window has expired issues a
new live fetch. -/
theorem fetchModels_cache_window (p : Provider) (st0 : ModelCache) (t0 t1 t2 : Nat)
    (dO : List OAIModelEntry) (dG : List GeminiModelEntry)
    (o2 o3 : FetchOutcome (List OAIModelEntry))
    (g2 g3 : FetchOutcome (List GeminiModelEntry))
    (hp : p.isAvailable = true)
    (h0 : st0.isFresh t0 = false) (ht0 : t0 ≠ 0)
    (h1 : t1 - t0 < CACHE_DURATION) (h2 : ¬ t2 - t0 < CACHE_DURATION) :
    (∃ models1 st1,
      openaiFetchModels p st0 t0 (FetchOutcome.success dO) =
        { models := models1, cache := st1, networkCalls := 1 } ∧
      st1 = { cachedModels := some models1, modelsCacheTime := some t0 } ∧
      openaiFetchModels p st1 t1 o2 =
        { models := models1, cache := st1, networkCalls := 0 } ∧
      (openaiFetchModels p st1 t2 o3).networkCalls = 1) ∧
    (∃ models1 st1,
      geminiFetchModels p st0 t0 (FetchOutcome.success dG) =
        { models := models1, cache := st1, networkCalls := 1 } ∧
      st1 = { cachedModels := some models1, modelsCacheTime := some t0 } ∧
      geminiFetchModels p st1 t1 g2 =
        { models := models1, cache := st1, networkCalls := 0 } ∧
      (geminiFetchModels p st1 t2 g3).networkCalls = 1) := by
  have hfresh : ∀ l : List String,
      (ModelCache.mk (some l) (some t0)).isFresh t1 = true := by
    intro l
    simp [ModelCache.isFresh, ht0, h1]
  have hstale : ∀ l : List String,
      (ModelCache.mk (some l) (some t0)).isFresh t2 = false := by
    intro l
    simp [ModelCache.isFresh, h2]
  constructor
  · refine ⟨if (openaiChatModels dO).length > 0 then openaiChatModels dO
        else p.getAvailableModels,
      ⟨some (if (openaiChatModels dO).length > 0 then openaiChatModels dO
        else p.getAvailableModels), some t0⟩, ?_, rfl, ?_, ?_⟩
    · simp [openaiFetchModels, h0, hp]
    · simp [openaiFetchModels, hfresh]
    · cases o3 <;> simp [openaiFetchModels, hstale, hp]
  · refine ⟨if (geminiChatModels dG).length > 0 then geminiChatModels dG
        else p.getAvailableModels,
      ⟨some (if (geminiChatModels dG).length > 0 then geminiChatModels dG
        else p.getAvailableModels), some t0⟩, ?_, rfl, ?_, ?_⟩
    · simp [geminiFetchModels, h0, hp]
    · simp [geminiFetchModels, hfresh]
    · cases g3 <;> simp [geminiFetchModels, hstale, hp]

/-- Witness for C4 at the OpenAI and Gemini adapters with a one-element
payload, fetch at time 1, re-fetch at time 2, expiry re-fetch at time
3600001. -/
theorem fetchModels_cache_window_witness :
    (∃ models1 st1,
      openaiFetchModels (mkProvider openaiConfig oaEnv) emptyCache 1
          (FetchOutcome.success [{ id := "gpt-4o", created := 10 }]) =
        { models := models1, cache := st1, networkCalls := 1 } ∧
      st1 = { cachedModels := some models1, modelsCacheTime := some 1 } ∧
      openaiFetchModels (mkProvider openaiConfig oaEnv) st1 2 FetchOutcome.thrown =
        { models := models1, cache := st1, networkCalls := 0 } ∧
      (openaiFetchModels (mkProvider openaiConfig oaEnv) st1 3600001
          FetchOutcome.thrown).networkCalls = 1) ∧
    (∃ models1 st1,
      geminiFetchModels (mkProvider openaiConfig oaEnv) emptyCache 1
          (FetchOutcome.success
            [{ name := "models/gemini-2.5-pro"
               supportedGenerationMethods := some ["generateContent"] }]) =
        { models := models1, cache := st1, networkCalls := 1 } ∧
      st1 = { cachedModels := some models1, modelsCacheTime := some 1 } ∧
      geminiFetchModels (mkProvider openaiConfig oaEnv) st1 2 FetchOutcome.thrown =
        { models := models1, cache := st1, networkCalls := 0 } ∧
      (geminiFetchModels (mkProvider openaiConfig oaEnv) st1 3600001
          FetchOutcome.thrown).networkCalls = 1) :=
  fetchModels_cache_window (mkProvider openaiConfig oaEnv) emptyCache 1 2 3600001
    [{ id := "gpt-4o", created := 10 }]
    [{ name := "models/gemini-2.5-pro"
       supportedGenerationMethods := some ["generateContent"] }]
    FetchOutcome.thrown FetchOutcome.thrown FetchOutcome.thrown FetchOutcome.thrown
    (by decide) (by decide) (by decide) (by decide) (by decide)

/-- C5: when the cache is not fresh and the live model-fetch fails (thrown
network error or non-success HTTP status), `fetchAvailableModels` returns
exactly the static `getAvailableModels` list without raising, and leaves
any existing cache entry untouched; when the adapter is unavailable it
returns the static list immediately, with zero network calls, for every
possible network outcome. -/
theorem fetchModels_failure_fallback (p : Provider) (st : ModelCache) (now : Nat)
    (h : st.isFresh now = false) :
    (openaiFetchModels p st now FetchOutcome.thrown =
      { models := p.getAvailableModels, cache := st
        networkCalls := if p.isAvailable then 1 else 0 } ∧
     openaiFetchModels p st now FetchOutcome.httpError =
      { models := p.getAvailableModels, cache := st
        networkCalls := if p.isAvailable then 1 else 0 } ∧
     (p.isAvailable = false → ∀ o, openaiFetchModels p st now o =
      { models := p.getAvailableModels, cache := st, networkCalls := 0 })) ∧
    (geminiFetchModels p st now FetchOutcome.thrown =
      { models := p.getAvailableModels, cache := st
        networkCalls := if p.isAvailable then 1 else 0 } ∧
     geminiFetchModels p st now FetchOutcome.httpError =
      { models := p.getAvailableModels, cache := st
        networkCalls := if p.isAvailable then 1 else 0 } ∧
     (p.isAvailable = false → ∀ g, geminiFetchModels p st now g =
      { models := p.getAvailableModels, cache := st, networkCalls := 0 })) := by
  refine ⟨⟨?_, ?_, ?_⟩, ⟨?_, ?_, ?_⟩⟩
  · cases hp : p.isAvailable <;> simp [openaiFetchModels, h, hp]
  · cases hp : p.isAvailable <;> simp [openaiFetchModels, h, hp]
  · intro hp o
    cases o <;> simp [openaiFetchModels, h, hp]
  · cases hp : p.isAvailable <;> simp [geminiFetchModels, h, hp]
  · cases hp : p.isAvailable <;> simp [geminiFetchModels, h, hp]
  · intro hp g
    cases g <;> simp [geminiFetchModels, h, hp]

/-- Witness for C5 at an available OpenAI adapter with a stale cache entry
(stamped at time 1, queried at time 5000000). -/
theorem fetchModels_failure_fallback_witness :
    (openaiFetchModels (mkProvider openaiConfig oaEnv)
        { cachedModels := some ["old-model"], modelsCacheTime := some 1 } 5000000
        FetchOutcome.thrown =
      { models := ["gpt-4o", "gpt-4o-mini", "gpt-4-turbo", "gpt-4", "gpt-3.5-turbo"]
        cache := { cachedModels := some ["old-model"], modelsCacheTime := some 1 }
        networkCalls := 1 }) ∧
    (openaiFetchModels (mkProvider openaiConfig oaEnv)
        { cachedModels := some ["old-model"], modelsCacheTime := some 1 } 5000000
        FetchOutcome.httpError).models =
      ["gpt-4o", "gpt-4o-mini", "gpt-4-turbo", "gpt-4", "gpt-3.5-turbo"] := by
  have h := fetchModels_failure_fallback (mkProvider openaiConfig oaEnv)
    { cachedModels := some ["old-model"], modelsCacheTime := some 1 } 5000000 (by decide)
  exact ⟨h.1.1.trans (by decide), by rw [h.1.2.1]; decide⟩

/-- C10: starting from a cache whose entry (if any) is non-empty, an
adapter with a non-empty static catalog never returns an empty list from
`fetchAvailableModels` (under any network outcome), the cache entry it
leaves behind is never empty, and when a live fetch succeeds but the
post-filtering keeps zero chat models the adapter caches and returns the
static list instead of the empty result. -/
theorem fetchModels_never_empty (p : Provider) (st : ModelCache) (now : Nat)
    (o : FetchOutcome (List OAIModelEntry)) (g : FetchOutcome (List GeminiModelEntry))
    (hs : p.getAvailableModels ≠ [])
    (hc : ∀ l, st.cachedModels = some l → l ≠ []) :
    ((openaiFetchModels p st now o).models ≠ [] ∧
     (∀ l, (openaiFetchModels p st now o).cache.cachedModels = some l → l ≠ []) ∧
     (∀ data, st.isFresh now = false → p.isAvailable = true →
       openaiChatModels data = [] →
       openaiFetchModels p st now (FetchOutcome.success data) =
         { models := p.getAvailableModels
           cache := { cachedModels := some p.getAvailableModels
                      modelsCacheTime := some now }
           networkCalls := 1 })) ∧
    ((geminiFetchModels p st now g).models ≠ [] ∧
     (∀ l, (geminiFetchModels p st now g).cache.cachedModels = some l → l ≠ []) ∧
     (∀ data, st.isFresh now = false → p.isAvailable = true →
       geminiChatModels data = [] →
       geminiFetchModels p st now (FetchOutcome.success data) =
         { models := p.getAvailableModels
           cache := { cachedModels := some p.getAvailableModels
                      modelsCacheTime := some now }
           networkCalls := 1 })) := by
  have oai : (openaiFetchModels p st now o).models ≠ [] ∧
      (∀ l, (openaiFetchModels p st now o).cache.cachedModels = some l → l ≠ []) := by
    by_cases hf : st.isFresh now = true
    · cases hcm : st.cachedModels with
      | none => simp [ModelCache.isFresh, hcm] at hf
      | some l =>
        have he : openaiFetchModels p st now o =
            { models := st.cachedModels.getD [], cache := st, networkCalls := 0 } := by
          simp [openaiFetchModels, hf]
        rw [he]
        exact ⟨by rw [hcm]; exact hc l hcm, hc⟩
    · have hnf : st.isFresh now = false := Bool.not_eq_true _ ▸ hf
      cases hp : p.isAvailable with
      | false =>
        have he : openaiFetchModels p st now o =
            { models := p.getAvailableModels, cache := st, networkCalls := 0 } := by
          simp [openaiFetchModels, hnf, hp]
        rw [he]
        exact ⟨hs, hc⟩
      | true =>
        cases o with
        | thrown =>
          have he : openaiFetchModels p st now FetchOutcome.thrown =
              { models := p.getAvailableModels, cache := st, networkCalls := 1 } := by
            simp [openaiFetchModels, hnf, hp]
          rw [he]
          exact ⟨hs, hc⟩
        | httpError =>
          have he : openaiFetchModels p st now FetchOutcome.httpError =
              { models := p.getAvailableModels, cache := st, networkCalls := 1 } := by
            simp [openaiFetchModels, hnf, hp]
          rw [he]
          exact ⟨hs, hc⟩
        | success data =>
          by_cases hlen : (openaiChatModels data).length > 0
          · have he : openaiFetchModels p st now (FetchOutcome.success data) =
                { models := openaiChatModels data
                  cache := { cachedModels := some (openaiChatModels data)
                             modelsCacheTime := some now }
                  networkCalls := 1 } := by
              simp [openaiFetchModels, hnf, hp, hlen]
            rw [he]
            have hne : openaiChatModels data ≠ [] := by
              intro he2
              rw [he2] at hlen
              simp at hlen
            exact ⟨hne, fun l' hl' => by cases hl'; exact hne⟩
          · have he : openaiFetchModels p st now (FetchOutcome.success data) =
                { models := p.getAvailableModels
                  cache := { cachedModels := some p.getAvailableModels
                             modelsCacheTime := some now }
                  networkCalls := 1 } := by
              simp [openaiFetchModels, hnf, hp, hlen]
            rw [he]
            exact ⟨hs, fun l' hl' => by cases hl'; exact hs⟩
  have gem : (geminiFetchModels p st now g).models ≠ [] ∧
      (∀ l, (geminiFetchModels p st now g).cache.cachedModels = some l → l ≠ []) := by
    by_cases hf : st.isFresh now = true
    · cases hcm : st.cachedModels with
      | none => simp [ModelCache.isFresh, hcm] at hf
      | some l =>
        have he : geminiFetchModels p st now g =
            { models := st.cachedModels.getD [], cache := st, networkCalls := 0 } := by
          simp [geminiFetchModels, hf]
        rw [he]
        exact ⟨by rw [hcm]; exact hc l hcm, hc⟩
    · have hnf : st.isFresh now = false := Bool.not_eq_true _ ▸ hf
      cases hp : p.isAvailable with
      | false =>
        have he : geminiFetchModels p st now g =
            { models := p.getAvailableModels, cache := st, networkCalls := 0 } := by
          simp [geminiFetchModels, hnf, hp]
        rw [he]
        exact ⟨hs, hc⟩
      | true =>
        cases g with
        | thrown =>
          have he : geminiFetchModels p st now FetchOutcome.thrown =
              { models := p.getAvailableModels, cache := st, networkCalls := 1 } := by
            simp [geminiFetchModels, hnf, hp]
          rw [he]
          exact ⟨hs, hc⟩
        | httpError =>
          have he : geminiFetchModels p st now FetchOutcome.httpError =
              { models := p.getAvailableModels, cache := st, networkCalls := 1 } := by
            simp [geminiFetchModels, hnf, hp]
          rw [he]
          exact ⟨hs, hc⟩
        | success data =>
          by_cases hlen : (geminiChatModels data).length > 0
          · have he : geminiFetchModels p st now (FetchOutcome.success data) =
                { models := geminiChatModels data
                  cache := { cachedModels := some (geminiChatModels data)
                             modelsCacheTime := some now }
                  networkCalls := 1 } := by
              simp [geminiFetchModels, hnf, hp, hlen]
            rw [he]
            have hne : geminiChatModels data ≠ [] := by
              intro he2
              rw [he2] at hlen
              simp at hlen
            exact ⟨hne, fun l' hl' => by cases hl'; exact hne⟩
          · have he : geminiFetchModels p st now (FetchOutcome.success data) =
                { models := p.getAvailableModels
                  cache := { cachedModels := some p.getAvailableModels
                             modelsCacheTime := some now }
                  networkCalls := 1 } := by
              simp [geminiFetchModels, hnf, hp, hlen]
            rw [he]
            exact ⟨hs, fun l' hl' => by cases hl'; exact hs⟩
  refine ⟨⟨oai.1, oai.2, ?_⟩, ⟨gem.1, gem.2, ?_⟩⟩
  · intro data hnf hp hchat
    simp [openaiFetchModels, hnf, hp, hchat]
  · intro data hnf hp hchat
    simp [geminiFetchModels, hnf, hp, hchat]

/-- Witness for C10: a live payload whose filter keeps nothing (an OpenAI
entry without a chat-model id; a Gemini entry without `generateContent`)
still yields the non-empty static catalog from an empty cache. -/
theorem fetchModels_never_empty_witness :
    ((openaiFetchModels (mkProvider openaiConfig oaEnv) emptyCache 7
        (FetchOutcome.success [{ id := "davinci", created := 5 }])).models ≠ [] ∧
     (∀ l, (openaiFetchModels (mkProvider openaiConfig oaEnv) emptyCache 7
        (FetchOutcome.success [{ id := "davinci", created := 5 }])).cache.cachedModels =
          some l → l ≠ []) ∧
     (∀ data, emptyCache.isFresh 7 = false →
       (mkProvider openaiConfig oaEnv).isAvailable = true →
       openaiChatModels data = [] →
       openaiFetchModels (mkProvider openaiConfig oaEnv) emptyCache 7
           (FetchOutcome.success data) =
         { models := (mkProvider openaiConfig oaEnv).getAvailableModels
           cache := { cachedModels := some (mkProvider openaiConfig oaEnv).getAvailableModels
                      modelsCacheTime := some 7 }
           networkCalls := 1 })) ∧
    ((geminiFetchModels (mkProvider openaiConfig oaEnv) emptyCache 7
        (FetchOutcome.success
          [{ name := "models/text-embed", supportedGenerationMethods := some ["embedContent"] }])).models ≠ [] ∧
     (∀ l, (geminiFetchModels (mkProvider openaiConfig oaEnv) emptyCache 7
        (FetchOutcome.success
          [{ name := "models/text-embed", supportedGenerationMethods := some ["embedContent"] }])).cache.cachedModels =
          some l → l ≠ []) ∧
     (∀ data, emptyCache.isFresh 7 = false →
       (mkProvider openaiConfig oaEnv).isAvailable = true →
       geminiChatModels data = [] →
       geminiFetchModels (mkProvider openaiConfig oaEnv) emptyCache 7
           (FetchOutcome.success data) =
         { models := (mkProvider openaiConfig oaEnv).getAvailableModels
           cache := { cachedModels := some (mkProvider openaiConfig oaEnv).getAvailableModels
                      modelsCacheTime := some 7 }
           networkCalls := 1 })) :=
  fetchModels_never_empty (mkProvider openaiConfig oaEnv) emptyCache 7
    (FetchOutcome.success [{ id := "davinci", created := 5 }])
    (FetchOutcome.success
      [{ name := "models/text-embed", supportedGenerationMethods := some ["embedContent"] }])
    (by decide)
    (fun l hl => absurd hl (by simp [emptyCache]))

/-- C6 counterexample: with the OpenAI adapter available, a vendor result
reporting `inputTokens = 5`, `outputTokens = 3` and a directly supplied
total of `0` yields `usage.totalTokens = 8`, not the vendor-supplied `0`:
the JavaScript `totalTokens || (input + output)` treats a zero total as
absent, so the claim as stated fails at this input. -/
theorem chat_usage_vendor_total_cex :
    ((mkProvider openaiConfig oaEnv).chat {}
        { text := "hi"
          usage := some { inputTokens := some 5, outputTokens := some 3
                          totalTokens := some 0 } }).result =
      Except.ok { content := "hi", provider := "openai", model := "gpt-4o-mini"
                  usage := some { promptTokens := 5, completionTokens := 3
                                  totalTokens := 8 } } ∧
    (8 : Nat) ≠ 0 := by
  exact ⟨by decide, by decide⟩

/-- C6 (amended): for an available adapter, `usage` is absent exactly when
the vendor reports no usage record; when it reports one,
`promptTokens`/`completionTokens` are the vendor counts (`0` when absent),
`totalTokens` equals a vendor-supplied nonzero total, and equals
`promptTokens + completionTokens` when the vendor total is absent or zero
(a zero vendor total is treated as absent by the `||` normalization). -/
theorem chat_usage_normalized (p : Provider) (opts : ChatOptions) (vendor : VendorResult)
    (h : p.isAvailable = true) :
    (vendor.usage = none →
      ∃ r, (p.chat opts vendor).result = Except.ok r ∧ r.usage = none) ∧
    (∀ u, vendor.usage = some u →
      ∃ r ru, (p.chat opts vendor).result = Except.ok r ∧ r.usage = some ru ∧
        ru.promptTokens = jsOrNat u.inputTokens 0 ∧
        ru.completionTokens = jsOrNat u.outputTokens 0 ∧
        (∀ t, u.totalTokens = some t → t ≠ 0 → ru.totalTokens = t) ∧
        ((u.totalTokens = none ∨ u.totalTokens = some 0) →
          ru.totalTokens = ru.promptTokens + ru.completionTokens)) := by
  have he : p.chat opts vendor =
      { result := Except.ok
          { content := vendor.text
            provider := p.config.name
            model := jsOrStr opts.model p.config.defaultModel
            usage := vendor.usage.map normalizeUsage }
        request := some
          { modelId := jsOrStr opts.model p.config.defaultModel
            temperature := opts.temperature
            maxRetries := 3
            reasoningEffort :=
              if opts.reasoningEffort.isSome && p.config.name == "openai" then
                opts.reasoningEffort
              else none }
        networkCalls := 1
        clientConstructions := 1 } := by
    simp [Provider.chat, Provider.assertAvailable, h]
  constructor
  · intro hu
    refine ⟨_, by rw [he], ?_⟩
    simp [hu]
  · intro u hu
    refine ⟨_, normalizeUsage u, by rw [he], by simp [hu], rfl, rfl, ?_, ?_⟩
    · intro t ht hne
      simp [normalizeUsage, ht, jsOrNat, hne]
    · intro hcase
      rcases hcase with hnone | hzero
      · simp [normalizeUsage, hnone, jsOrNat]
      · simp [normalizeUsage, hzero, jsOrNat]

/-- Witness for the amended C6: vendor counts 5/3 with no supplied total
normalize to `totalTokens = promptTokens + completionTokens`. -/
theorem chat_usage_normalized_witness :
    ∃ r ru, ((mkProvider openaiConfig oaEnv).chat {}
        { text := "hi"
          usage := some { inputTokens := some 5, outputTokens := some 3
                          totalTokens := none } }).result = Except.ok r ∧
      r.usage = some ru ∧
      ru.promptTokens = jsOrNat (some 5) 0 ∧
      ru.completionTokens = jsOrNat (some 3) 0 ∧
      ru.totalTokens = ru.promptTokens + ru.completionTokens := by
  obtain ⟨r, ru, h1, h2, h3, h4, _, h6⟩ :=
    (chat_usage_normalized (mkProvider openaiConfig oaEnv) {}
      { text := "hi"
        usage := some { inputTokens := some 5, outputTokens := some 3
                        totalTokens := none } }
      (by decide)).2
      { inputTokens := some 5, outputTokens := some 3, totalTokens := none } rfl
  exact ⟨r, ru, h1, h2, h3, h4, h6 (Or.inl rfl)⟩

/-- C7: for an available adapter, `streamChat` yields exactly the vendor's
fragments in arrival order (no re-chunking, re-ordering or coalescing),
opens the stream with the same request parameters `chat` would send, and
for an equivalent deterministic vendor response (full text equal to the
concatenation of the fragments) the concatenation of the yielded fragments
equals the content `chat` returns; the sequence completes normally when
the vendor signals completion and a mid-stream failure raises a vendor
error rather than silently truncating. -/
theorem streamChat_refines_chat (p : Provider) (opts : ChatOptions)
    (vs : VendorStream) (vendor : VendorResult)
    (h : p.isAvailable = true) (heq : vendor.text = String.join vs.chunks) :
    (p.streamChat opts vs).yielded = vs.chunks ∧
    (p.streamChat opts vs).request = (p.chat opts vendor).request ∧
    (vs.failure = none → (p.streamChat opts vs).outcome = Except.ok () ∧
      ∃ r, (p.chat opts vendor).result = Except.ok r ∧
        String.join (p.streamChat opts vs).yielded = r.content) ∧
    (∀ msg, vs.failure = some msg →
      (p.streamChat opts vs).outcome = Except.error (AiChatError.vendorErr msg)) := by
  have hes : p.streamChat opts vs =
      { yielded := vs.chunks
        outcome :=
          match vs.failure with
          | none => Except.ok ()
          | some msg => Except.error (AiChatError.vendorErr msg)
        request := some
          { modelId := jsOrStr opts.model p.config.defaultModel
            temperature := opts.temperature
            maxRetries := 3
            reasoningEffort :=
              if opts.reasoningEffort.isSome && p.config.name == "openai" then
                opts.reasoningEffort
              else none }
        networkCalls := 1
        clientConstructions := 1 } := by
    simp [Provider.streamChat, Provider.assertAvailable, h]
  have hec : p.chat opts vendor =
      { result := Except.ok
          { content := vendor.text
            provider := p.config.name
            model := jsOrStr opts.model p.config.defaultModel
            usage := vendor.usage.map normalizeUsage }
        request := some
          { modelId := jsOrStr opts.model p.config.defaultModel
            temperature := opts.temperature
            maxRetries := 3
            reasoningEffort :=
              if opts.reasoningEffort.isSome && p.config.name == "openai" then
                opts.reasoningEffort
              else none }
        networkCalls := 1
        clientConstructions := 1 } := by
    simp [Provider.chat, Provider.assertAvailable, h]
  refine ⟨by rw [hes], by rw [hes, hec], ?_, ?_⟩
  · intro hf
    constructor
    · rw [hes]
      simp [hf]
    · refine ⟨_, by rw [hec], ?_⟩
      rw [hes]
      simpa using heq.symm
  · intro msg hf
    rw [hes]
    simp [hf]

/-- Witness for C7: two fragments `"He"`, `"llo"` against the buffered
text `"Hello"`. -/
theorem streamChat_refines_chat_witness :
    ((mkProvider openaiConfig oaEnv).streamChat {}
        { chunks := ["He", "llo"], failure := none }).yielded = ["He", "llo"] ∧
    ((mkProvider openaiConfig oaEnv).streamChat {}
        { chunks := ["He", "llo"], failure := none }).request =
      ((mkProvider openaiConfig oaEnv).chat {} { text := "Hello", usage := none }).request ∧
    ((none : Option String) = none →
      ((mkProvider openaiConfig oaEnv).streamChat {}
          { chunks := ["He", "llo"], failure := none }).outcome = Except.ok () ∧
      ∃ r, ((mkProvider openaiConfig oaEnv).chat {}
          { text := "Hello", usage := none }).result = Except.ok r ∧
        String.join ((mkProvider openaiConfig oaEnv).streamChat {}
          { chunks := ["He", "llo"], failure := none }).yielded = r.content) ∧
    (∀ msg, (none : Option String) = some msg →
      ((mkProvider openaiConfig oaEnv).streamChat {}
          { chunks := ["He", "llo"], failure := none }).outcome =
        Except.error (AiChatError.vendorErr msg)) :=
  streamChat_refines_chat (mkProvider openaiConfig oaEnv) {}
    { chunks := ["He", "llo"], failure := none } { text := "Hello", usage := none }
    (by decide) (by decide)

/-- C9 counterexample: on an adapter without a credential, `createModel`
fails at once with `ApiKeyMissingError` (raised by the `assertAvailable`
inside the lazy `getClient`), so `createModel` is not failure-free for
every adapter; the claim as stated fails at this input. -/
theorem createModel_unavailable_cex :
    ((mkProvider openaiConfig emptyEnv).createModel (some "gpt-4o")).result =
      Except.error (AiChatError.apiKeyMissing "OPENAI_API_KEY" "OpenAI") := by
  decide

/-- C9 (amended): `createModel` performs no network I/O for any adapter
and any model id; on an available adapter it never fails — it returns the
vendor handle for the explicit model id when a non-empty one is given,
else the configured `defaultModel` (an empty-string id also falls back to
the default) — while on an unavailable adapter it fails with
`ApiKeyMissingError` without any network use. -/
theorem createModel_no_failure_when_available (p : Provider) (mid : Option String)
    (h : p.isAvailable = true) :
    p.createModel mid =
      { result := Except.ok
          { providerName := p.config.name
            modelId := jsOrStr mid p.config.defaultModel
            apiKey := p.apiKey, baseUrl := p.baseUrl }
        networkCalls := 0 } ∧
    (∀ m, mid = some m → m ≠ "" → jsOrStr mid p.config.defaultModel = m) ∧
    (mid = none → jsOrStr mid p.config.defaultModel = p.config.defaultModel) ∧
    (∀ q : Provider, (q.createModel mid).networkCalls = 0) := by
  refine ⟨by simp [Provider.createModel, Provider.assertAvailable, h], ?_, ?_, ?_⟩
  · intro m hm hne
    simp [hm, jsOrStr, hne]
  · intro hm
    simp [hm, jsOrStr]
  · intro q
    cases hq : q.assertAvailable <;> simp [Provider.createModel, hq]

/-- Witness for the amended C9: the available OpenAI adapter resolves an
explicit model id into a handle with zero network calls. -/
theorem createModel_no_failure_when_available_witness :
    (mkProvider openaiConfig oaEnv).createModel (some "gpt-4o") =
      { result := Except.ok
          { providerName := "openai", modelId := "gpt-4o"
            apiKey := some "sk-test", baseUrl := none }
        networkCalls := 0 } :=
  ((createModel_no_failure_when_available (mkProvider openaiConfig oaEnv) (some "gpt-4o")
      (by decide)).1).trans (by decide)
